import Mathlib

/-!
Verification development for the NMB_Game server game engine
(`src/server/game_logic/`).  The Python modules `constants.py`, `cards.py`,
`board.py`, `player.py`, `game.py` and `actions.py` are shallowly embedded
below: Python objects become Lean structures, in-place mutation becomes
explicit state passing, Python exceptions become an explicit error value that
carries the state reached at the point of the raise (Python mutations survive
a caught exception), and every use of the `random` module is routed through an
explicit `Rand` record of oracles so that all definitions stay executable and
deterministic.  Wall-clock timestamps (`datetime.now()`) and the purely
serialization-oriented payload fields of action results are not modelled.
-/

namespace NMB

/-- Enumerated game lifecycle states, from `game.py` class `GameState`. -/
inductive GameState where
  | waiting
  | starting
  | pawnPlacement
  | playing
  | paused
  | finished
deriving DecidableEq, Repr

/-- String value of a `GameState`, mirroring the Python enum `.value`. -/
def GameState.value : GameState → String
  | .waiting => "waiting"
  | .starting => "starting"
  | .pawnPlacement => "pawn_placement"
  | .playing => "playing"
  | .paused => "paused"
  | .finished => "finished"

/-- Game phases, from `constants.py` class `GamePhase`. -/
inductive GamePhase where
  | exploration
  | mutation
  | endGame
deriving DecidableEq, Repr

/-- Path tile types, from `constants.py` class `PathTileType`. -/
inductive PathTileType where
  | basic
  | disordered
  | construction
  | rotating
  | stairwell
  | elevator
  | initial
deriving DecidableEq, Repr

/-- Special square types, from `constants.py` class `SpecialSquareType`. -/
inductive SpecialSquareType where
  | normal
  | stairwell
  | elevatorRoom
  | eventSquare
  | emergencyDoor
  | itemSquare
  | wall
deriving DecidableEq, Repr

/-- Effect card subtypes, from `constants.py` class `EffectCardType`. -/
inductive EffectCardType where
  | specialItem
  | event
  | anomaly
deriving DecidableEq, Repr

-- Constants from `constants.py`.
def FLOOR_LO : Int := 1
def FLOOR_HI : Int := 6        -- FLOOR_RANGE = (1, 6), upper bound excluded
def BOARD_W : Int := 5         -- BOARD_SIZE = (5, 5)
def BOARD_H : Int := 5
def STARTING_FLOOR : Int := 2
def INITIAL_X : Int := 2       -- INITIAL_POSITION = (2, 2)
def INITIAL_Y : Int := 2
def MAX_DISORDER : Int := 10
def DISORDER_FALL_THRESHOLD : Int := 6
def MEET_DISORDER_RANGE : Int := 2
def MEET_DISORDER_REDUCTION : Int := 1
def ROB_DISORDER_PENALTY : Int := 1
def MAX_ITEM_SLOTS : Nat := 6
def MAX_EFFECT_SLOTS : Nat := 4
def HAND_SIZE_LIMIT : Nat := 7
def ESCAPE_ITEMS_REQUIRED : Int := 3
def ESCAPE_FLOOR : Int := 5
def EXPERIMENT_REPORTS_REQUIRED : Int := 7
def MAP_CORRUPTION_LIMIT : ℚ := 7 / 10   -- 0.70 (Python float, exact here)
def CORRUPTION_SPREAD_RATE : ℚ := 1 / 20 -- 0.05 (Python float, exact here)
def PHASE_MUTATION_THRESHOLD : Int := 50  -- PHASE_THRESHOLDS[MUTATION]
def PHASE_END_GAME_THRESHOLD : Int := 100 -- PHASE_THRESHOLDS[END_GAME]
def ZONES : List String := ["A", "B", "C", "D", "E", "F", "G", "H"]

/-- Helper `can_explore` from `constants.py`. -/
def canExplore (disorder_level : Int) : Bool :=
  disorder_level < DISORDER_FALL_THRESHOLD

/-- Helper `can_pass_walls` from `constants.py`. -/
def canPassWalls (disorder_level : Int) : Bool :=
  disorder_level ≥ 7

/-- Helper `calculate_corruption_percentage` from `constants.py`. -/
def calculateCorruptionPct (corrupted total : Nat) : ℚ :=
  if total = 0 then 0 else (corrupted : ℚ) / (total : ℚ)

/-- Helper `is_game_lost` from `constants.py`. -/
def isGameLost (pct : ℚ) : Bool :=
  pct ≥ MAP_CORRUPTION_LIMIT

/-- Helper `get_current_phase` from `constants.py`: phase as a function of
the cumulative completed-action count. -/
def getCurrentPhase (total_actions : Int) : GamePhase :=
  if total_actions ≥ PHASE_END_GAME_THRESHOLD then .endGame
  else if total_actions ≥ PHASE_MUTATION_THRESHOLD then .mutation
  else .exploration

/-- Python exception kinds raised by the embedded code. -/
inductive PyErr where
  | typeError (msg : String)
  | keyError (msg : String)
  | attributeError (msg : String)
  | indexError (msg : String)
deriving DecidableEq, Repr

/-- Message text of an exception, used for `"Internal error: " + str(e)`. -/
def PyErr.msg : PyErr → String
  | .typeError m => m
  | .keyError m => m
  | .attributeError m => m
  | .indexError m => m

/-- Tile-grid position, from `board.py` dataclass `TilePosition`.  The
`__post_init__` bounds check is the predicate `TilePos.valid` below; the
smart constructor `mkTilePos` raises `ValueError` exactly when Python does. -/
structure TilePos where
  x : Int
  y : Int
  floor : Int
deriving DecidableEq, Repr

/-- Bounds check of `TilePosition.__post_init__`. -/
def TilePos.valid (p : TilePos) : Bool :=
  (0 ≤ p.x && p.x < BOARD_W) && (0 ≤ p.y && p.y < BOARD_H) &&
  (FLOOR_LO ≤ p.floor && p.floor < FLOOR_HI)

/-- Constructor of `TilePosition`: returns `Except.error` where Python raises
`ValueError`. -/
def mkTilePos (x y floor : Int) : Except String TilePos :=
  let p : TilePos := ⟨x, y, floor⟩
  if p.valid then .ok p else .error "tile position out of bounds"

/-- Sub-cell position, from `board.py` dataclass `Position`. -/
structure Position where
  tile_x : Int
  tile_y : Int
  sub_x : Int
  sub_y : Int
  floor : Int
deriving DecidableEq, Repr

/-- Bounds check of `Position.__post_init__`. -/
def Position.valid (p : Position) : Bool :=
  (0 ≤ p.tile_x && p.tile_x < BOARD_W) && (0 ≤ p.tile_y && p.tile_y < BOARD_H) &&
  (0 ≤ p.sub_x && p.sub_x < 4) && (0 ≤ p.sub_y && p.sub_y < 4) &&
  (FLOOR_LO ≤ p.floor && p.floor < FLOOR_HI)

/-- Constructor of `Position`, raising `ValueError` as `Except.error`. -/
def mkPosition (tx ty sx sy fl : Int) : Except String Position :=
  let p : Position := ⟨tx, ty, sx, sy, fl⟩
  if p.valid then .ok p else .error "position out of bounds"

/-- Conversion `Position.to_absolute_coords`. -/
def Position.toAbsoluteCoords (p : Position) : Int × Int :=
  (p.tile_x * 4 + p.sub_x, p.tile_y * 4 + p.sub_y)

/-- Conversion `Position.get_tile_position`. -/
def Position.getTilePosition (p : Position) : TilePos :=
  ⟨p.tile_x, p.tile_y, p.floor⟩

/-- Offsets scanned by `get_adjacent_positions`: `dx` in `[-1,0,1]` outer,
`dy` in `[-1,0,1]` inner, skipping `(0,0)` — all EIGHT surrounding cells,
diagonals included. -/
def adjacentOffsets : List (Int × Int) :=
  [(-1, -1), (-1, 0), (-1, 1), (0, -1), (0, 1), (1, -1), (1, 0), (1, 1)]

/-- Method `TilePosition.get_adjacent_positions` with
`include_current_floor_only=True` (the only mode the claims reach): the
in-bounds cells among the eight surrounding ones, on the same floor. -/
def TilePos.adjacentSameFloor (p : TilePos) : List TilePos :=
  adjacentOffsets.filterMap fun (d : Int × Int) =>
    let nx := p.x + d.1
    let ny := p.y + d.2
    if 0 ≤ nx && nx < BOARD_W && 0 ≤ ny && ny < BOARD_H then
      some ⟨nx, ny, p.floor⟩
    else
      none

/-- Cards, from `cards.py`, as a tagged union: `PathTileCard`, `EffectCard`
(with its `ItemCard` / `EventCard` / `AnomalyCard` subtypes as the `kind`
tag), `ButtonCard`, `ZoneNameCard`. -/
inductive Card where
  | path (card_id : String) (tile_type : PathTileType)
      (layout : List ((Int × Int) × SpecialSquareType)) (rotation : Int)
      (name : String)
  | effect (card_id : String) (kind : EffectCardType) (name : String)
  | button (card_id : String) (available_floors : List Int)
      (available_zones : List String) (name : String)
  | zoneName (card_id : String) (zone_letter : String) (zone_name : String)
deriving DecidableEq, Repr

/-- Field `card_id` shared by every card class. -/
def Card.cardId : Card → String
  | .path i _ _ _ _ => i
  | .effect i _ _ => i
  | .button i _ _ _ => i
  | .zoneName i _ _ => i

/-- Field `name` shared by every card class. -/
def Card.cardName : Card → String
  | .path _ _ _ _ n => n
  | .effect _ _ n => n
  | .button _ _ _ n => n
  | .zoneName _ l _ => "Zone " ++ l

/-- Method `ButtonCard.can_access_floor`. -/
def Card.canAccessFloor (c : Card) (floor : Int) : Bool :=
  match c with
  | .button _ fls _ _ => fls.contains floor
  | _ => false

/-- Method `ButtonCard.can_access_zone`. -/
def Card.canAccessZone (c : Card) (zone : String) : Bool :=
  match c with
  | .button _ _ zs _ => zs.contains zone
  | _ => false

/-- Inventory entry: the Python inventories store `card.to_dict()`
dictionaries.  Those dictionaries carry a `card_id` and a `name` key but no
`id` key; `idKey` models the optional `id` key that `remove_item` /
`remove_from_hand` / `rob` look up (always absent for entries produced by
`to_dict`). -/
structure ItemEntry where
  card_id : String
  name : String
  idKey : Option String := none
deriving DecidableEq, Repr

/-- Conversion `card.to_dict()` into the inventory-entry shape. -/
def Card.toEntry (c : Card) : ItemEntry :=
  { card_id := c.cardId, name := c.cardName, idKey := none }

/-- Dataclass `PlayerInventory` from `player.py`. -/
structure Inventory where
  items : List ItemEntry
  effects : List ItemEntry
  hand : List ItemEntry
deriving DecidableEq, Repr

/-- Method `PlayerInventory.add_item`. -/
def Inventory.addItem (inv : Inventory) (it : ItemEntry) : Bool × Inventory :=
  if inv.items.length < MAX_ITEM_SLOTS then
    (true, { inv with items := inv.items ++ [it] })
  else (false, inv)

/-- Method `PlayerInventory.add_to_hand`. -/
def Inventory.addToHand (inv : Inventory) (c : ItemEntry) : Bool × Inventory :=
  if inv.hand.length < HAND_SIZE_LIMIT then
    (true, { inv with hand := inv.hand ++ [c] })
  else (false, inv)

/-- Removal of the first entry whose `get('id')` equals `eid`
(`PlayerInventory.remove_item`). -/
def removeFirstById (l : List ItemEntry) (eid : String) :
    Option ItemEntry × List ItemEntry :=
  match l with
  | [] => (none, [])
  | it :: rest =>
    if it.idKey = some eid then (some it, rest)
    else
      let (r, rest') := removeFirstById rest eid
      (r, it :: rest')

/-- Method `PlayerInventory.remove_item`. -/
def Inventory.removeItem (inv : Inventory) (eid : String) :
    Option ItemEntry × Inventory :=
  let (r, items') := removeFirstById inv.items eid
  (r, { inv with items := items' })

/-- Method `PlayerInventory.remove_from_hand`. -/
def Inventory.removeFromHand (inv : Inventory) (eid : String) :
    Option ItemEntry × Inventory :=
  let (r, hand') := removeFirstById inv.hand eid
  (r, { inv with hand := hand' })

/-- Deck of one category, from `cards.py` class `Deck` (the `deck_type` tag
is kept implicitly by which field of the game holds the deck). -/
structure Deck where
  cards : List Card
  discarded : List Card
  drawn_count : Nat
deriving DecidableEq, Repr

/-- Oracles replacing the `random` module, so every embedded definition is
executable.  `shuffleCards` stands for `random.shuffle`, `pickZone` /
`pickCard` for `random.choice`, `corruptRoll cid` for the per-candidate
Bernoulli draw `random.random() < rate` in `spread_corruption` (the rate is
absorbed into the oracle), `roll sid` for the movement `randint(1, 6)` of the
player starting a turn, and the remaining fields for the random content of
`PathTile._generate_default_layout`. -/
structure Rand where
  shuffleCards : List Card → List Card
  shuffleNames : List String → List String
  pickZone : List String → String
  pickCard : List ItemEntry → ItemEntry
  corruptRoll : String → Bool
  roll : String → Int
  freshId : String
  basicEventSq : Option (Int × Int)
  basicItemSq : Option (Int × Int)

/-- Trivial deterministic oracle used for concrete evaluations. -/
def rand0 : Rand where
  shuffleCards := id
  shuffleNames := id
  pickZone := fun l => l.headD "A"
  pickCard := fun l => l.headD { card_id := "", name := "" }
  corruptRoll := fun _ => false
  roll := fun _ => 1
  freshId := "fresh"
  basicEventSq := none
  basicItemSq := none

/-- Method `Deck.draw` from `cards.py`: pop from the front; when the draw
pile is empty, recycle the discard pile as the new draw pile via a shuffle;
when both are empty, return `none`. -/
def Deck.draw (rand : Rand) (d : Deck) : Option Card × Deck :=
  if d.cards.isEmpty then
    if d.discarded.isEmpty then (none, d)
    else
      match rand.shuffleCards d.discarded with
      | [] => (none, { d with cards := [], discarded := [] })
      | c :: rest =>
        (some c, { cards := rest, discarded := [], drawn_count := d.drawn_count + 1 })
  else
    match d.cards with
    | [] => (none, d)
    | c :: rest =>
      (some c, { d with cards := rest, drawn_count := d.drawn_count + 1 })

/-- Method `Deck.discard`. -/
def Deck.discardCard (d : Deck) (c : Card) : Deck :=
  { d with discarded := d.discarded ++ [c] }

/-- Method `Deck.add_card`: returns a card straight to the draw pile (used to
roll back a draw after a failed placement). -/
def Deck.addCard (d : Deck) (c : Card) : Deck :=
  { d with cards := d.cards ++ [c] }

/-- Placed tile, from `board.py` dataclass `PathTile`. -/
structure PathTile where
  tile_id : String
  tile_type : PathTileType
  position : TilePos
  rotation : Int := 0
  special_squares : List ((Int × Int) × SpecialSquareType) := []
  zone : Option String := none
  is_corrupted : Bool := false
  is_removed : Bool := false
  connections : List ((Int × Int) × (Int × Int)) := []
  movable_positions : List (Int × Int) := []
deriving DecidableEq, Repr

/-- Association-list read with Python `dict.get(key, default)` semantics. -/
def sqGet (l : List ((Int × Int) × SpecialSquareType)) (k : Int × Int) :
    SpecialSquareType :=
  match l.find? (fun e => e.1 = k) with
  | some e => e.2
  | none => .normal

/-- All sixteen local cells of a 4x4 tile, in the `for x: for y:` order used
by the layout generators. -/
def tileCells : List (Int × Int) :=
  (List.range 4).flatMap fun x => (List.range 4).map fun y => ((x : Int), (y : Int))

/-- Method `PathTile._generate_default_layout` from `board.py`: fill with
normal squares, then add the type-specific special squares.  The two
random extras of the `BASIC` branch come from the `Rand` oracle. -/
def defaultLayout (rand : Rand) (t : PathTileType) :
    List ((Int × Int) × SpecialSquareType) :=
  let base := tileCells.map fun c => (c, SpecialSquareType.normal)
  let override (l : List ((Int × Int) × SpecialSquareType))
      (k : Int × Int) (v : SpecialSquareType) :=
    l.map fun e => if e.1 = k then (k, v) else e
  match t with
  | .stairwell => override (override base (1, 1) .stairwell) (2, 2) .stairwell
  | .elevator =>
    override (override (override (override base
      (1, 1) .elevatorRoom) (2, 1) .elevatorRoom) (1, 2) .elevatorRoom)
      (2, 2) .elevatorRoom
  | .basic =>
    let l1 := match rand.basicEventSq with
      | some k => override base k .eventSquare
      | none => base
    match rand.basicItemSq with
    | some k => override l1 k .itemSquare
    | none => l1
  | _ => base

/-- Method `PathTile._generate_default_connections`: the deterministic cross
pattern of intra-tile adjacencies. -/
def defaultConnections : List ((Int × Int) × (Int × Int)) :=
  tileCells.flatMap fun c =>
    ([(0, 1), (1, 0), (0, -1), (-1, 0)] : List (Int × Int)).filterMap fun d =>
      let n := (c.1 + d.1, c.2 + d.2)
      if 0 ≤ n.1 && n.1 < 4 && 0 ≤ n.2 && n.2 < 4 then some (c, n) else none

/-- Method `PathTile._generate_movable_positions`: walls are skipped and the
six listed square types are always movable; since those seven cases cover the
whole `SpecialSquareType` enum, the `random.random() < 0.7` branch of the
source is unreachable and the function is deterministic.  If nothing is
movable, the four corners are. -/
def genMovablePositions (layout : List ((Int × Int) × SpecialSquareType)) :
    List (Int × Int) :=
  let movable := tileCells.filter fun c => sqGet layout c ≠ .wall
  if movable.isEmpty then [(0, 0), (0, 3), (3, 0), (3, 3)] else movable

/-- Constructor semantics of the `PathTile` dataclass (`__post_init__`):
empty `tile_id`, `special_squares`, `connections` or `movable_positions`
arguments are replaced by generated defaults. -/
def mkPathTile (rand : Rand) (tile_id : String) (tile_type : PathTileType)
    (position : TilePos) (special_squares : List ((Int × Int) × SpecialSquareType))
    (rotation : Int) (zone : Option String) : PathTile :=
  let tid := if tile_id = "" then rand.freshId else tile_id
  let sq := if special_squares.isEmpty then defaultLayout rand tile_type
            else special_squares
  { tile_id := tid
    tile_type := tile_type
    position := position
    rotation := rotation
    special_squares := sq
    zone := zone
    connections := defaultConnections
    movable_positions := genMovablePositions sq }

/-- Method `PathTile.is_position_movable`. -/
def PathTile.isPositionMovable (t : PathTile) (local_pos : Int × Int) : Bool :=
  t.movable_positions.contains local_pos

/-- Method `PathTile.get_entrance_points`: movable edge cells in the source's
scan order, then any movable cells, then the center fallback. -/
def PathTile.getEntrancePoints (t : PathTile) : List (Int × Int) :=
  let topBottom := (List.range 4).flatMap fun x =>
    ([0, 3] : List Int).filterMap fun y =>
      if t.movable_positions.contains ((x : Int), y) then some ((x : Int), y)
      else none
  let sides := ([1, 2] : List Int).flatMap fun y =>
    ([0, 3] : List Int).filterMap fun x =>
      if t.movable_positions.contains (x, y) then some (x, y) else none
  let pts := topBottom ++ sides
  if pts.isEmpty && !t.movable_positions.isEmpty then t.movable_positions.take 4
  else if pts.isEmpty then [(1, 1)]
  else pts

/-- Board state, from `board.py` class `Board`.  The per-floor dictionaries
`floors[floor][(x, y)]` are flattened into one association list keyed by
`(x, y, floor)`; the five floor dictionaries exist for exactly the floors
1-5 that every validated `TilePosition` lies on. -/
structure Board where
  tiles : List ((Int × Int × Int) × PathTile)
  zone_assignments : List ((Int × Int) × String)
  zone_names : List (String × Option String)
  available_zone_names : List String
  corrupted_tiles : List String
  corruption_spread_rate : ℚ
  stairwells : List (Int × List TilePos)
  elevators : List (Int × List TilePos)
  escape_exits : List Position
deriving DecidableEq, Repr

/-- Lookup `floors[floor].get((x, y))` restricted to stored tiles. -/
def Board.getTileAtKey (b : Board) (k : Int × Int × Int) : Option PathTile :=
  match b.tiles.find? (fun e => e.1 = k) with
  | some e => some e.2
  | none => none

/-- Method `Board.get_tile_at_tile_pos`. -/
def Board.getTileAtTilePos (b : Board) (p : TilePos) : Option PathTile :=
  b.getTileAtKey (p.x, p.y, p.floor)

/-- Method `Board.get_tile_at_position` (sub-position overload). -/
def Board.getTileAtPosition (b : Board) (p : Position) : Option PathTile :=
  b.getTileAtTilePos p.getTilePosition

/-- Method `Board.is_position_movable`. -/
def Board.isPositionMovable (b : Board) (p : Position) : Bool :=
  match b.getTileAtPosition p with
  | none => false
  | some t =>
    if t.is_corrupted || t.is_removed then false
    else t.isPositionMovable (p.sub_x, p.sub_y)

/-- Method `Board._has_adjacent_tile` for a `TilePosition` argument: true iff
at least one of the up-to-eight same-floor surrounding cells (diagonals
included) holds a tile. -/
def Board.hasAdjacentTile (b : Board) (p : TilePos) : Bool :=
  p.adjacentSameFloor.any fun q => (b.getTileAtTilePos q).isSome

/-- Dictionary read `zone_assignments.get(key)`. -/
def Board.zoneAt (b : Board) (k : Int × Int) : Option String :=
  match b.zone_assignments.find? (fun e => e.1 = k) with
  | some e => some e.2
  | none => none

/-- Method `Board._assign_zone` for a `TilePosition`: reuse a random adjacent
zone for continuity, else pick an unused zone letter, else any letter. -/
def Board.assignZone (rand : Rand) (b : Board) (p : TilePos) : String × Board :=
  let key := (p.x, p.y)
  match b.zoneAt key with
  | some z => (z, b)
  | none =>
    let adjacent_zones :=
      (p.adjacentSameFloor.filterMap fun q => b.zoneAt (q.x, q.y)).dedup
    let chosen :=
      if !adjacent_zones.isEmpty then rand.pickZone adjacent_zones
      else
        let assigned := b.zone_assignments.map (·.2)
        let unassigned := ZONES.filter fun z => !assigned.contains z
        if !unassigned.isEmpty then rand.pickZone unassigned
        else rand.pickZone ZONES
    (chosen, { b with zone_assignments := b.zone_assignments ++ [(key, chosen)] })

/-- Grouped-list append used by `_update_special_locations`. -/
def addLocation (l : List (Int × List TilePos)) (floor : Int) (p : TilePos) :
    List (Int × List TilePos) :=
  match l.find? (fun e => e.1 = floor) with
  | some _ => l.map fun e => if e.1 = floor then (e.1, e.2 ++ [p]) else e
  | none => l ++ [(floor, [p])]

/-- Method `Board._update_special_locations`. -/
def Board.updateSpecialLocations (b : Board) (t : PathTile) : Board :=
  match t.tile_type with
  | .stairwell => { b with stairwells := addLocation b.stairwells t.position.floor t.position }
  | .elevator => { b with elevators := addLocation b.elevators t.position.floor t.position }
  | _ => b

/-- Method `Board.place_tile`: fails (no mutation) when the target cell is
occupied, or when the tile is non-Initial and `_has_adjacent_tile` is false;
on success stores the tile, assigns a zone if unset and updates the special
location indices.  `none` models the `False` return (the board is untouched),
`some b` the `True` return with the mutated board. -/
def Board.placeTile (rand : Rand) (b : Board) (t : PathTile) : Option Board :=
  let key := (t.position.x, t.position.y, t.position.floor)
  if (b.getTileAtKey key).isSome then none
  else if t.tile_type ≠ .initial && !b.hasAdjacentTile t.position then none
  else
    let (zone, b1) :=
      match t.zone with
      | some z => (z, b)
      | none => b.assignZone rand t.position
    let t' := { t with zone := some zone }
    let b2 := { b1 with tiles := b1.tiles ++ [(key, t')] }
    some (b2.updateSpecialLocations t')

/-- Method `Board.corrupt_tile`: idempotent add to the corrupted set. -/
def Board.corruptTile (b : Board) (tile_id : String) : Bool × Board :=
  if b.corrupted_tiles.contains tile_id then (false, b)
  else (true, { b with corrupted_tiles := b.corrupted_tiles ++ [tile_id] })

/-- Method `Board._find_tile_by_id`. -/
def Board.findTileById (b : Board) (tile_id : String) : Option PathTile :=
  match b.tiles.find? (fun e => e.2.tile_id = tile_id) with
  | some e => some e.2
  | none => none

/-- Method `Board.spread_corruption`: collect the not-yet-corrupted same-floor
neighbors of corrupted tiles, then corrupt each candidate whose Bernoulli
draw (`random.random() < spread_rate`, abstracted by `corruptRoll`) succeeds. -/
def Board.spreadCorruption (rand : Rand) (b : Board) : List String × Board :=
  let candidates :=
    (b.corrupted_tiles.flatMap fun tid =>
      match b.findTileById tid with
      | none => []
      | some t =>
        t.position.adjacentSameFloor.filterMap fun q =>
          match b.getTileAtTilePos q with
          | some adj =>
            if !b.corrupted_tiles.contains adj.tile_id then some adj.tile_id
            else none
          | none => none).dedup
  candidates.foldl
    (fun (acc : List String × Board) cid =>
      if rand.corruptRoll cid then
        let (fresh, b') := acc.2.corruptTile cid
        (if fresh then acc.1 ++ [cid] else acc.1, b')
      else acc)
    ([], b)

/-- Method `Board.get_corruption_percentage` (total counts every stored tile,
as `sum(len(floor_tiles) ...)` does). -/
def Board.getCorruptionPercentage (b : Board) : ℚ :=
  calculateCorruptionPct b.corrupted_tiles.length b.tiles.length

/-- Method `Board.is_game_lost_to_corruption`: the source computes
`corrupted / total >= 0.70` in floating point (0 when no tile is placed);
this is its exact-arithmetic form `total != 0 and 10*corrupted >= 7*total`,
which keeps the definition kernel-computable. -/
def Board.isGameLostToCorruption (b : Board) : Bool :=
  b.tiles.length ≠ 0 && 10 * b.corrupted_tiles.length ≥ 7 * b.tiles.length

/-- Constructor `Board.__init__` including `_create_initial_tile`: empty
floors, shuffled zone-name cards, and the Initial tile placed at
`INITIAL_POSITION` on the starting floor with zone `"B"`. -/
def Board.init (rand : Rand) : Board :=
  let empty : Board :=
    { tiles := []
      zone_assignments := []
      zone_names := ZONES.map fun z => (z, none)
      available_zone_names := rand.shuffleNames
        ["Laboratory Wing", "Administrative Office", "Research Facility",
         "Patient Ward", "Storage Area", "Maintenance Tunnel",
         "Observation Deck", "Emergency Exit"]
      corrupted_tiles := []
      corruption_spread_rate := 0
      stairwells := []
      elevators := []
      escape_exits := [] }
  let initTile := mkPathTile rand "initial_tile" .initial
    ⟨INITIAL_X, INITIAL_Y, STARTING_FLOOR⟩ [] 0 (some "B")
  let placed := match empty.placeTile rand initTile with
    | some b => b
    | none => empty
  { placed with zone_assignments :=
      placed.zone_assignments ++ [((INITIAL_X, INITIAL_Y), "B")] }

/-- Per-player statistics dictionary from `Player.__init__`. -/
structure Stats where
  turns_taken : Int := 0
  tiles_explored : Int := 0
  items_found : Int := 0
  players_met : Int := 0
  players_robbed : Int := 0
  falls_taken : Int := 0
  max_disorder_reached : Int := 0
deriving DecidableEq, Repr

/-- Player state, from `player.py` class `Player` (wall-clock fields
`created_at` / `last_seen` and the static `player_id` string are omitted). -/
structure Player where
  name : String
  socket_id : String
  disorder : Int := 0
  floor : Int := STARTING_FLOOR
  position : Option Position := none
  current_tile_id : Option String := none
  movement_points : Int := 0
  movement_used : Int := 0
  actions_taken : Int := 0
  turn_active : Bool := false
  inventory : Inventory := ⟨[], [], []⟩
  is_host : Bool := false
  is_connected : Bool := true
  escape_items_collected : Int := 0
  experiment_reports_collected : Int := 0
  stats : Stats := {}
deriving DecidableEq, Repr

/-- Method `Player.update_disorder`: clamps the new value into
`[0, MAX_DISORDER]` and tracks the maximum reached.  The boolean result of
the source (`changed`) is not consumed by any caller the claims reach. -/
def Player.updateDisorder (p : Player) (change : Int) : Player :=
  let d := max 0 (min MAX_DISORDER (p.disorder + change))
  { p with
      disorder := d
      stats :=
        if d > p.stats.max_disorder_reached then
          { p.stats with max_disorder_reached := d }
        else p.stats }

/-- Method `Player.change_floor`. -/
def Player.changeFloor (p : Player) (new_floor : Int) : Bool × Player :=
  if new_floor < 1 || new_floor > 5 then (false, p)
  else (true, { p with floor := new_floor })

/-- Method `Player.set_movement_points`. -/
def Player.setMovementPoints (p : Player) (points : Int) : Player :=
  { p with movement_points := points, movement_used := 0 }

/-- Method `Player.use_movement_points`. -/
def Player.useMovementPoints (p : Player) (points : Int) : Bool × Player :=
  if p.movement_used + points ≤ p.movement_points then
    (true, { p with movement_used := p.movement_used + points })
  else (false, p)

/-- Method `Player.get_remaining_movement`. -/
def Player.getRemainingMovement (p : Player) : Int :=
  p.movement_points - p.movement_used

/-- Method `Player.start_turn`. -/
def Player.startTurn (p : Player) : Player :=
  { p with
      turn_active := true
      movement_points := 0
      movement_used := 0
      stats := { p.stats with turns_taken := p.stats.turns_taken + 1 } }

/-- Method `Player.end_turn`. -/
def Player.endTurnSelf (p : Player) : Player :=
  { p with turn_active := false, movement_points := 0, movement_used := 0 }

/-- Structured result `{success, reason?}` returned by every action; the
additional serialization-only payload keys of the Python dictionaries are
not modelled. -/
structure ActionRes where
  success : Bool
  reason : Option String := none
deriving DecidableEq, Repr

/-- Failure result `{"success": False, "reason": r}`. -/
def failRes (r : String) : ActionRes := { success := false, reason := some r }

/-- Success result `{"success": True, ...}`. -/
def okRes : ActionRes := { success := true }

/-- Method `Player.perform_fall`: requires `floor > 1`; moves one floor down
and reduces disorder by one. -/
def Player.performFall (p : Player) : ActionRes × Player :=
  if p.floor ≤ 1 then (failRes "Already on bottom floor", p)
  else
    let (_, p1) := p.changeFloor (p.floor - 1)
    let p2 := p1.updateDisorder (-1)
    let p3 := { p2 with stats := { p2.stats with falls_taken := p2.stats.falls_taken + 1 } }
    (okRes, p3)

/-- Method `Player.can_interact_with_player`: same floor and position, plus
the per-action extra condition. -/
def Player.canInteractWith (p other : Player) (action_type : String) :
    Bool × String :=
  if p.floor ≠ other.floor || p.position ≠ other.position then
    (false, "Players must be on the same tile")
  else if action_type = "meet" then
    if |p.disorder - other.disorder| > MEET_DISORDER_RANGE then
      (false, "Disorder levels too different")
    else (true, "")
  else if action_type = "rob" then
    if other.inventory.hand.isEmpty then
      (false, "Target player has no cards to rob")
    else (true, "")
  else (true, "")

/-- Statistics bump `stats['players_met'] += 1`. -/
def Player.bumpMet (p : Player) : Player :=
  { p with stats := { p.stats with players_met := p.stats.players_met + 1 } }

/-- Method `Player.meet_player self other`.  `sameObject` records whether the
caller passed the same Python object for both parameters (the target id
equals the actor id): in that case the two `update_disorder(-1)` calls and
the two statistics bumps chain on the one object, so both returned players
are that single doubly-updated record. -/
def Player.meetPlayer (p other : Player) (sameObject : Bool) :
    ActionRes × Player × Player :=
  let (can, reason) := p.canInteractWith other "meet"
  if !can then (failRes reason, p, other)
  else if sameObject then
    let p1 := (p.updateDisorder (-MEET_DISORDER_REDUCTION)).updateDisorder
      (-MEET_DISORDER_REDUCTION)
    let p2 := p1.bumpMet.bumpMet
    (okRes, p2, p2)
  else
    let p' := (p.updateDisorder (-MEET_DISORDER_REDUCTION)).bumpMet
    let other' := (other.updateDisorder (-MEET_DISORDER_REDUCTION)).bumpMet
    (okRes, p', other')

/-- Entry of the append-only game log (timestamp omitted). -/
structure LogEvent where
  event_type : String
  message : String
  player_id : Option String := none
deriving DecidableEq, Repr

/-- Session state, from `game.py` class `Game`.  The `decks` dictionary keyed
by `CardType` becomes four fields; `created_at` / `last_updated` timestamps
and the static `game_id` / `max_players` configuration are omitted. -/
structure Game where
  state : GameState
  current_phase : GamePhase
  round_number : Int
  turn_number : Int
  total_actions : Int
  players : List (String × Player)
  player_order : List String
  current_player_index : Nat
  board : Board
  pathDeck : Deck
  effectDeck : Deck
  buttonDeck : Deck
  zoneDeck : Deck
  dice_results : List (String × Int)
  game_log : List LogEvent
  victory_condition_met : Bool
  victory_type : Option String
  winning_players : List String
  defeat_reason : Option String
  active_anomalies : List Card
  escape_exits_revealed : Bool
  players_placed_pawns : List String
deriving DecidableEq, Repr

/-- Dictionary read `game.players.get(socket_id)`. -/
def pget (l : List (String × Player)) (sid : String) : Option Player :=
  match l with
  | [] => none
  | (k, v) :: rest => if k = sid then some v else pget rest sid

/-- In-place mutation of the player object stored under `sid` (Python
mutates the object held by the dictionary; keys are unchanged). -/
def pset (l : List (String × Player)) (sid : String) (p : Player) :
    List (String × Player) :=
  match l with
  | [] => []
  | (k, v) :: rest =>
    if k = sid then (k, p) :: pset rest sid p else (k, v) :: pset rest sid p

/-- Mutation helper writing back a player object. -/
def Game.setPlayer (g : Game) (sid : String) (p : Player) : Game :=
  { g with players := pset g.players sid p }

/-- Method `Game._log_event`. -/
def Game.logEvent (g : Game) (event_type message : String)
    (player_id : Option String := none) : Game :=
  { g with game_log := g.game_log ++ [⟨event_type, message, player_id⟩] }

/-- Method `Game.get_current_player` together with the dictionary key the
current player is stored under (mutations through the fetched object hit
that slot): `none` outside the pawn-placement and playing states or with an
empty order; reading `player_order[index]` out of range raises `IndexError`
like the Python list indexing would. -/
def Game.currentEntry (g : Game) : Except PyErr (Option (String × Player)) :=
  if g.player_order.isEmpty ||
      (g.state ≠ .pawnPlacement && g.state ≠ .playing) then
    .ok none
  else
    match g.player_order.get? g.current_player_index with
    | none => .error (.indexError "list index out of range")
    | some csid =>
      match pget g.players csid with
      | none => .ok none
      | some cp => .ok (some (csid, cp))

/-- Method `Game.get_current_player`. -/
def Game.getCurrentPlayer (g : Game) : Except PyErr (Option Player) :=
  match g.currentEntry with
  | .error e => .error e
  | .ok none => .ok none
  | .ok (some e) => .ok (some e.2)

/-- Method `Game.is_player_turn`. -/
def Game.isPlayerTurn (g : Game) (sid : String) : Except PyErr Bool :=
  match g.getCurrentPlayer with
  | .error e => .error e
  | .ok none => .ok false
  | .ok (some cp) => .ok (cp.socket_id = sid)

/-- Function `validate_action` from `actions.py`: the common gate (player
exists, session playing, player's turn) followed by the per-action
requirements for explore, fall and move. -/
def validateAction (g : Game) (sid : String) (action_type : String) :
    Except PyErr (Bool × String) :=
  match pget g.players sid with
  | none => .ok (false, "Player not found")
  | some player =>
    if g.state.value ≠ "playing" then
      .ok (false, "Game is not in playing state")
    else
      match g.isPlayerTurn sid with
      | .error e => .error e
      | .ok turn =>
        if !turn then .ok (false, "Not your turn")
        else if action_type = "explore" then
          if !canExplore player.disorder then
            .ok (false, "Disorder too high (" ++ toString player.disorder ++
              " >= " ++ toString DISORDER_FALL_THRESHOLD ++ "), must Fall")
          else if player.getRemainingMovement ≤ 0 then
            .ok (false, "No movement points remaining")
          else .ok (true, "")
        else if action_type = "fall" then
          if canExplore player.disorder then
            .ok (false, "Disorder too low (" ++ toString player.disorder ++
              " < " ++ toString DISORDER_FALL_THRESHOLD ++ "), can Explore")
          else if player.floor ≤ 1 then
            .ok (false, "Already on bottom floor")
          else .ok (true, "")
        else if action_type = "move" then
          if player.getRemainingMovement ≤ 0 then
            .ok (false, "No movement points remaining")
          else .ok (true, "")
        else .ok (true, "")

/-- Target of a Move action: either the new `{tile_x, tile_y, sub_x, sub_y,
floor}` format or the legacy `{x, y, floor}` absolute format (the source
distinguishes them by whether the `sub_x` / `sub_y` keys are present). -/
inductive MoveTarget where
  | subPos (tile_x tile_y sub_x sub_y floor : Int)
  | legacy (x y floor : Int)
deriving DecidableEq, Repr

/-- Placement target of an Explore action, distinguished by the `tile_x`
key. -/
inductive ExploreTarget where
  | tilePos (tile_x tile_y floor : Int)
  | legacy (x y floor : Int)
deriving DecidableEq, Repr

/-- Request parameters dictionary passed to the handlers; each handler reads
only the keys it needs (`dict.get` returning `None` for absent keys). -/
structure ActionData where
  target_position : Option MoveTarget := none
  placement_position : Option ExploreTarget := none
  target_player : Option String := none
  target_floor : Option Int := none
  target_zone : Option String := none
  item_id : Option String := none
deriving DecidableEq, Repr

/-- Outcome of a handler: a returned result or a raised exception, in both
cases together with the game state reached (Python mutations performed
before a raise persist). -/
abbrev HandlerOut := (Except PyErr ActionRes) × Game

/-- Parsing of a `MoveTarget` into a validated `Position`, mirroring the
`try` block of `action_move` (a `ValueError` from the `Position` constructor
is reported as a failure, not raised). -/
def parseMoveTarget (t : MoveTarget) : Except String Position :=
  match t with
  | .subPos tx ty sx sy fl => mkPosition tx ty sx sy fl
  | .legacy x y fl =>
    -- Python floor division and modulo.
    mkPosition (Int.fdiv x 4) (Int.fdiv y 4) (Int.emod x 4) (Int.emod y 4) fl

/-- Function `_handle_tile_effects` from `actions.py` with
`trigger="movement_end"`: reads the square type at the fixed local cell
`(1, 1)` and resolves event draws, item pickups and emergency-door checks.
The base-class `EffectCard.apply_effects` mutates nothing.  An event-square
draw that yields a non-event card is neither applied nor returned to the
deck. -/
def handleTileEffects (rand : Rand) (g : Game) (sid : String) (player : Player)
    (tile : PathTile) : Game :=
  let square := sqGet tile.special_squares (1, 1)
  if square = .eventSquare then
    let (card?, d') := g.effectDeck.draw rand
    let g := { g with effectDeck := d' }
    match card? with
    | some c =>
      match c with
      | .effect _ .event _ => { g with effectDeck := g.effectDeck.discardCard c }
      | _ => g
    | none => g
  else if square = .itemSquare then
    let (card?, d') := g.effectDeck.draw rand
    let g := { g with effectDeck := d' }
    match card? with
    | some c =>
      match c with
      | .effect _ .specialItem _ =>
        let (added, inv') := player.inventory.addItem c.toEntry
        if added then
          let player' := { player with
            inventory := inv'
            stats := { player.stats with items_found := player.stats.items_found + 1 } }
          g.setPlayer sid player'
        else
          { g with effectDeck := g.effectDeck.addCard c }
      | _ => g
    | none => g
  else
    -- The emergency-door branch only reports an escape availability message.
    g

/-- Handler `action_move` from `actions.py`. -/
def actionMove (rand : Rand) (g : Game) (sid : String) (data : ActionData) :
    HandlerOut :=
  match validateAction g sid "move" with
  | .error e => (.error e, g)
  | .ok (false, reason) => (.ok (failRes reason), g)
  | .ok (true, _) =>
    match pget g.players sid with
    | none => (.error (.keyError sid), g)
    | some player =>
      match data.target_position with
      | none => (.ok (failRes "Target position required"), g)
      | some tgt =>
        match parseMoveTarget tgt with
        | .error e =>
          (.ok (failRes ("Invalid target position: " ++ e)), g)
        | .ok target_pos =>
          if !g.board.isPositionMovable target_pos then
            (.ok (failRes
              "Target position is not movable (blocked by walls or obstacles)"), g)
          else
            match player.position with
            | none =>
              -- `current_pos.to_absolute_coords()` on `None` raises.
              (.error (.attributeError
                "NoneType object has no attribute to_absolute_coords"), g)
            | some current_pos =>
              let ac := current_pos.toAbsoluteCoords
              let at_ := target_pos.toAbsoluteCoords
              let movement_cost := |at_.1 - ac.1| + |at_.2 - ac.2|
              if movement_cost = 0 then
                (.ok (failRes "Already at target position"), g)
              else if movement_cost > player.getRemainingMovement then
                (.ok (failRes ("Not enough movement points (" ++
                  toString movement_cost ++ " needed, " ++
                  toString player.getRemainingMovement ++ " available)")), g)
              else
                let (_, p1) := player.useMovementPoints movement_cost
                let p2 := { p1 with position := some target_pos,
                                    floor := target_pos.floor }
                let g1 := g.setPlayer sid p2
                let g2 :=
                  match g1.board.getTileAtPosition target_pos with
                  | some tile =>
                    let p3 := { p2 with current_tile_id := some tile.tile_id }
                    let g' := g1.setPlayer sid p3
                    handleTileEffects rand g' sid p3 tile
                  | none => g1
                let g3 := { g2 with total_actions := g2.total_actions + 1 }
                let g4 := g3.logEvent "player_moved" "moved" (some sid)
                (.ok okRes, g4)

/-- Handler `action_fall` from `actions.py`: validation, `perform_fall` (the
player object is mutated here), then a landing-tile draw whose placement code
constructs `Position(player.position[0], player.position[1], player.floor)` —
subscripting the non-subscriptable `Position` object (and passing three
arguments to the five-parameter constructor), which raises `TypeError` after
the player has already been mutated and the card drawn. -/
def actionFall (rand : Rand) (g : Game) (sid : String) (_data : ActionData) :
    HandlerOut :=
  match validateAction g sid "fall" with
  | .error e => (.error e, g)
  | .ok (false, reason) => (.ok (failRes reason), g)
  | .ok (true, _) =>
    match pget g.players sid with
    | none => (.error (.keyError sid), g)
    | some player =>
      let (fall_result, player') := player.performFall
      let g1 := g.setPlayer sid player'
      if !fall_result.success then (.ok fall_result, g1)
      else
        let (card?, d') := g1.pathDeck.draw rand
        let g2 := { g1 with pathDeck := d' }
        match card? with
        | some _path_card =>
          -- Lines 282-296 of `actions.py` are unreachable beyond this point:
          -- the landing `Position` construction raises `TypeError`.
          (.error (.typeError "Position object is not subscriptable"), g2)
        | none =>
          let g3 := { g2 with total_actions := g2.total_actions + 1 }
          let g4 := g3.logEvent "player_fell" "fell" (some sid)
          (.ok fall_result, g4)

/-- Handler `action_meet` from `actions.py`: no call to `validate_action`,
hence no turn or state gate; the target must merely exist.  When the target
id equals the actor id both dictionary reads alias one object. -/
def actionMeet (g : Game) (sid : String) (data : ActionData) : HandlerOut :=
  match pget g.players sid with
  | none => (.error (.keyError sid), g)
  | some player =>
    match data.target_player with
    | none => (.ok (failRes "Target player not found"), g)
    | some tid =>
      if tid = "" then (.ok (failRes "Target player not found"), g)
      else
        match pget g.players tid with
        | none => (.ok (failRes "Target player not found"), g)
        | some target_player =>
          let (res, p', t') := player.meetPlayer target_player (sid = tid)
          if res.success then
            let g1 :=
              if sid = tid then g.setPlayer sid p'
              else (g.setPlayer sid p').setPlayer tid t'
            (.ok res, g1.logEvent "players_met" "met" (some sid))
          else (.ok res, g)

/-- Handler `action_rob` from `actions.py` with `Player.rob_player`: after
the interaction checks, `stolen_card['id']` subscripts the stolen hand
dictionary; hand entries produced by `to_dict` carry no `id` key, so a
present key is modelled by `idKey` and an absent one raises `KeyError`. -/
def actionRob (rand : Rand) (g : Game) (sid : String) (data : ActionData) :
    HandlerOut :=
  match pget g.players sid with
  | none => (.error (.keyError sid), g)
  | some player =>
    match data.target_player with
    | none => (.ok (failRes "Target player not found"), g)
    | some tid =>
      if tid = "" then (.ok (failRes "Target player not found"), g)
      else
        match pget g.players tid with
        | none => (.ok (failRes "Target player not found"), g)
        | some target_player =>
          let (can, reason) := player.canInteractWith target_player "rob"
          if !can then (.ok (failRes reason), g)
          else if target_player.inventory.hand.isEmpty then
            (.ok (failRes "Target has no cards"), g)
          else
            let stolen := rand.pickCard target_player.inventory.hand
            match stolen.idKey with
            | none => (.error (.keyError "id"), g)
            | some cid =>
              let (_, tinv) := target_player.inventory.removeFromHand cid
              let target1 := { target_player with inventory := tinv }
              let (added, pinv) := player.inventory.addToHand stolen
              if added then
                let p1 := { player with inventory := pinv }
                let p2 := p1.updateDisorder ROB_DISORDER_PENALTY
                let p3 := { p2 with stats :=
                  { p2.stats with players_robbed := p2.stats.players_robbed + 1 } }
                let g1 := (g.setPlayer tid target1).setPlayer sid p3
                (.ok okRes, g1.logEvent "player_robbed" "robbed" (some sid))
              else
                let (_, tinv2) := target1.inventory.addToHand stolen
                let g1 := g.setPlayer tid { target1 with inventory := tinv2 }
                (.ok (failRes "Robber's hand is full"), g1)

/-- Offsets scanned by the automatic placement search of `action_explore`:
East, West, South, North, in this order. -/
def exploreOffsets : List (Int × Int) := [(1, 0), (-1, 0), (0, 1), (0, -1)]

/-- Handler `action_explore` from `actions.py`. -/
def actionExplore (rand : Rand) (g : Game) (sid : String) (data : ActionData) :
    HandlerOut :=
  match validateAction g sid "explore" with
  | .error e => (.error e, g)
  | .ok (false, reason) => (.ok (failRes reason), g)
  | .ok (true, _) =>
    match pget g.players sid with
    | none => (.error (.keyError sid), g)
    | some player =>
      -- Resolve the placement slot.
      let place? : Except HandlerOut TilePos :=
        match data.placement_position with
        | none =>
          match player.position with
          | none =>
            -- `player.position.tile_x` on `None` raises.
            .error (.error (.attributeError
              "NoneType object has no attribute tile_x"), g)
          | some pos =>
            let cur : TilePos := ⟨pos.tile_x, pos.tile_y, pos.floor⟩
            let found := exploreOffsets.filterMap fun d =>
              let tx := cur.x + d.1
              let ty := cur.y + d.2
              if 0 ≤ tx && tx < BOARD_W && 0 ≤ ty && ty < BOARD_H then
                let tp : TilePos := ⟨tx, ty, cur.floor⟩
                if (g.board.getTileAtTilePos tp).isNone then some tp else none
              else none
            match found.head? with
            | some tp => .ok tp
            | none =>
              .error (.ok (failRes
                "No adjacent positions available for tile placement"), g)
        | some (.tilePos tx ty fl) =>
          match mkTilePos tx ty fl with
          | .ok tp => .ok tp
          | .error e =>
            .error (.ok (failRes ("Invalid placement position: " ++ e)), g)
        | some (.legacy x y fl) =>
          match mkTilePos (Int.fdiv x 4) (Int.fdiv y 4) fl with
          | .ok tp => .ok tp
          | .error e =>
            .error (.ok (failRes ("Invalid placement position: " ++ e)), g)
      match place? with
      | .error out => out
      | .ok place_pos =>
        let (card?, d') := g.pathDeck.draw rand
        let g1 := { g with pathDeck := d' }
        match card? with
        | none => (.ok (failRes "No path tiles remaining"), g1)
        | some path_card =>
          if !g1.board.hasAdjacentTile place_pos then
            let g2 := { g1 with pathDeck := g1.pathDeck.addCard path_card }
            (.ok (failRes "Tile must be placed adjacent to existing tiles"), g2)
          else
            match path_card with
            | .path cid ttype layout rot _ =>
              let new_tile := mkPathTile rand cid ttype place_pos layout rot none
              match g1.board.placeTile rand new_tile with
              | none =>
                let g2 := { g1 with pathDeck := g1.pathDeck.addCard path_card }
                (.ok (failRes "Cannot place tile at this position"), g2)
              | some board' =>
                let g2 := { g1 with board := board' }
                let player1 :=
                  if ttype = .disordered then player.updateDisorder 1 else player
                let g3 := g2.setPlayer sid player1
                let remaining := player1.getRemainingMovement
                let (g4, player3) :=
                  if remaining > 0 then
                    match new_tile.getEntrancePoints.head? with
                    | some ep =>
                      let new_position : Position :=
                        ⟨place_pos.x, place_pos.y, ep.1, ep.2, place_pos.floor⟩
                      let (_, pm) := player1.useMovementPoints 1
                      let p2 := { pm with
                        position := some new_position
                        floor := place_pos.floor
                        current_tile_id := some new_tile.tile_id }
                      (g3.setPlayer sid p2, p2)
                    | none => (g3, player1)
                  else (g3, player1)
                let player4 := { player3 with stats :=
                  { player3.stats with tiles_explored := player3.stats.tiles_explored + 1 } }
                let g5 := g4.setPlayer sid player4
                let g6 := { g5 with total_actions := g5.total_actions + 1 }
                (.ok okRes, g6.logEvent "tile_explored" "explored" (some sid))
            | _ =>
              -- Cards in the path-tile deck are path-tile cards; a foreign
              -- card would lack `tile_type` and raise `AttributeError`.
              (.error (.attributeError "card has no attribute tile_type"), g1)

/-- Handler `action_use_stairs` from `actions.py`: after the target-floor
range check, `Position(player.position[0], player.position[1], player.floor)`
subscripts the non-subscriptable `Position` object (and passes three
arguments to the five-parameter constructor), raising `TypeError`; lines
356-401 are unreachable. -/
def actionUseStairs (g : Game) (sid : String) (data : ActionData) :
    HandlerOut :=
  match pget g.players sid with
  | none => (.error (.keyError sid), g)
  | some _player =>
    let floorOk := match data.target_floor with
      | none => false        -- `None not in range(1, 6)`
      | some fl => FLOOR_LO ≤ fl && fl < FLOOR_HI
    if !floorOk then (.ok (failRes "Invalid target floor"), g)
    else (.error (.typeError "Position object is not subscriptable"), g)

/-- Handler `action_use_elevator` from `actions.py`: the very first
statement after reading the parameters constructs
`Position(player.position[0], player.position[1], player.floor)`, raising
`TypeError` before any tile check, button draw or malfunction roll; lines
413-489 (including the malfunction branch and the button discard) are
unreachable. -/
def actionUseElevator (g : Game) (sid : String) (_data : ActionData) :
    HandlerOut :=
  match pget g.players sid with
  | none => (.error (.keyError sid), g)
  | some _player =>
    (.error (.typeError "Position object is not subscriptable"), g)

/-- Handler `action_use_item` from `actions.py`. -/
def actionUseItem (g : Game) (sid : String) (data : ActionData) :
    HandlerOut :=
  match pget g.players sid with
  | none => (.error (.keyError sid), g)
  | some player =>
    match data.item_id with
    | none => (.ok (failRes "Item ID required"), g)
    | some iid =>
      if iid = "" then (.ok (failRes "Item ID required"), g)
      else
        let (item?, inv') := player.inventory.removeItem iid
        match item? with
        | none => (.ok (failRes "Item not found in inventory"), g)
        | some item =>
          let p1 := { player with inventory := inv' }
          let p2 :=
            if (item.name.splitOn "First Aid Kit").length ≠ 1 then
              p1.updateDisorder (-2)
            else p1
          let g1 := g.setPlayer sid p2
          (.ok okRes, g1.logEvent "used_item" "used item" (some sid))

/-- Handler `action_pass` from `actions.py`: looks the player up, logs, and
returns success — no turn or state check of any kind. -/
def actionPass (g : Game) (sid : String) (_data : ActionData) : HandlerOut :=
  match pget g.players sid with
  | none => (.error (.keyError sid), g)
  | some _player =>
    (.ok okRes, g.logEvent "player_passed" "passed" (some sid))

/-- Dictionary write for the dice-results map. -/
def dset (l : List (String × Int)) (k : String) (v : Int) :
    List (String × Int) :=
  if l.any (fun e => e.1 = k) then
    l.map fun e => if e.1 = k then (e.1, v) else e
  else l ++ [(k, v)]

/-- Method `Game._start_next_turn`: fetch the current player, end every
still-active turn, start the current player's turn, and (outside pawn
placement) roll the movement die and grant the budget. -/
def Game.startNextTurn (rand : Rand) (g : Game) : (Except PyErr Unit) × Game :=
  match g.currentEntry with
  | .error e => (.error e, g)
  | .ok none => (.ok (), g)
  | .ok (some (csid, cp)) =>
    let g1 := { g with players := g.players.map fun (e : String × Player) =>
      if e.2.turn_active then (e.1, e.2.endTurnSelf) else e }
    -- The fetched current-player object went through the loop above as well.
    let cp1 := if cp.turn_active then cp.endTurnSelf else cp
    let cp2 := cp1.startTurn
    let g2 := g1.setPlayer csid cp2
    if g2.state = .pawnPlacement then
      (.ok (), g2.logEvent "turn_started" "place your pawn" none)
    else
      let roll := rand.roll csid
      let cp3 := cp2.setMovementPoints roll
      let g3 := g2.setPlayer csid cp3
      let g4 := { g3 with
        dice_results := dset g3.dice_results ("movement_" ++ csid) roll }
      (.ok (), g4.logEvent "turn_started" "turn started" none)

/-- Method `Game._end_round`: bump the round counter and, in the Mutation /
EndGame phases, spread corruption (the per-candidate Bernoulli draws for
rates `CORRUPTION_SPREAD_RATE` and `CORRUPTION_SPREAD_RATE * 2` are the
`corruptRoll` oracle). -/
def Game.endRound (rand : Rand) (g : Game) : Game :=
  let g1 := { g with round_number := g.round_number + 1 }
  let g2 :=
    match g1.current_phase with
    | .mutation =>
      let (newly, b') := g1.board.spreadCorruption rand
      let g' := { g1 with board := b' }
      if !newly.isEmpty then g'.logEvent "corruption_spread" "spread" none
      else g'
    | .endGame =>
      let (newly, b') := g1.board.spreadCorruption rand
      let g' := { g1 with board := b' }
      if !newly.isEmpty then g'.logEvent "corruption_accelerated" "spread" none
      else g'
    | .exploration => g1
  g2.logEvent "round_ended" "round completed" none

/-- Method `Game._check_phase_progression` with
`Game._handle_phase_transition`: recompute the phase from `total_actions`
and apply the transition effects.  Crossing into EndGame calls
`_reveal_escape_exits`, whose first loop iteration constructs
`Position(x, y, ESCAPE_FLOOR)` — three arguments for the five-parameter
constructor — and therefore raises `TypeError` before any exit is stored. -/
def Game.checkPhaseProgression (g : Game) : (Except PyErr Unit) × Game :=
  let newPhase := getCurrentPhase g.total_actions
  if newPhase = g.current_phase then (.ok (), g)
  else
    let g1 := { g with current_phase := newPhase }
    let g2 := g1.logEvent "phase_transition" "phase changed" none
    match newPhase with
    | .mutation =>
      let g3 := g2.logEvent "mutation_phase" "the building becomes more dangerous" none
      (.ok (), { g3 with board :=
        { g3.board with corruption_spread_rate := CORRUPTION_SPREAD_RATE } })
    | .endGame =>
      let g3 := g2.logEvent "endgame_phase" "the building begins to collapse" none
      if !g3.escape_exits_revealed then
        (.error (.typeError "Position constructor missing required arguments"), g3)
      else
        (.ok (), { g3 with board :=
          { g3.board with corruption_spread_rate := CORRUPTION_SPREAD_RATE * 2 } })
    | .exploration => (.ok (), g2)

/-- Method `Game._end_game_victory`. -/
def Game.endGameVictory (g : Game) (victory_type : String)
    (winners : List String) (message : String) : Game :=
  let g1 := { g with
    state := .finished
    victory_condition_met := true
    victory_type := some victory_type
    winning_players := winners }
  g1.logEvent "victory" message none

/-- Method `Game._end_game_defeat`. -/
def Game.endGameDefeat (g : Game) (defeat_type message : String) : Game :=
  let g1 := { g with
    state := .finished
    victory_condition_met := false
    defeat_reason := some (defeat_type ++ ": " ++ message) }
  g1.logEvent "defeat" message none

/-- Guard of the collective purification victory in
`Game._check_victory_conditions`, verbatim from the source:
`not self.active_anomalies and len(self.active_anomalies) > 0`. -/
def purificationCondition (g : Game) : Bool :=
  g.active_anomalies.isEmpty && decide (g.active_anomalies.length > 0)

/-- Per-player loop of `Game._check_victory_conditions`.  The escape branch
evaluates `any(exit_pos.x == player.position[0] ... for exit_pos in
escape_exits)`: with a non-empty exit list the first generator step reads
`exit_pos.x` on a `Position` dataclass that has no `x` attribute, raising
`AttributeError`; over an empty list `any` is `False` and evaluation falls
through to the research check. -/
def victoryScan (escape_exits : List Position) :
    List (String × Player) → Except PyErr (Option (String × String))
  | [] => .ok none
  | (sid, p) :: rest =>
    if p.escape_items_collected ≥ ESCAPE_ITEMS_REQUIRED &&
        p.floor = ESCAPE_FLOOR && !escape_exits.isEmpty then
      .error (.attributeError "Position object has no attribute x")
    else if p.experiment_reports_collected ≥ EXPERIMENT_REPORTS_REQUIRED then
      .ok (some ("research", sid))
    else victoryScan escape_exits rest

/-- Method `Game._check_victory_conditions`: the per-player escape / research
checks followed by the collective purification check. -/
def Game.checkVictoryConditions (g : Game) : (Except PyErr Unit) × Game :=
  match victoryScan g.board.escape_exits g.players with
  | .error e => (.error e, g)
  | .ok (some (vtype, winner)) =>
    (.ok (), g.endGameVictory vtype [winner] "uncovered the secrets")
  | .ok none =>
    if purificationCondition g then
      (.ok (), g.endGameVictory "purification" (g.players.map (·.1))
        "All anomalies have been purified!")
    else (.ok (), g)

/-- Method `Game._check_defeat_conditions`. -/
def Game.checkDefeatConditions (g : Game) : Bool × Game :=
  if g.board.isGameLostToCorruption then
    (true, g.endGameDefeat "corruption" "70% of the map became corrupted")
  else if (g.players.filter (fun e => e.2.is_connected)).isEmpty then
    (true, g.endGameDefeat "no_players" "All players disconnected")
  else (false, g)

/-- Method `Game._check_game_end_conditions`: defeat first, then victory. -/
def Game.checkGameEndConditions (g : Game) : (Except PyErr Unit) × Game :=
  let (defeated, g1) := g.checkDefeatConditions
  if defeated then (.ok (), g1) else g1.checkVictoryConditions

/-- Method `Game.end_turn`: reject unknown players and non-current players,
otherwise end the turn, advance the index (triggering end-of-round effects
on wrap-around), start the next turn, and run the phase and end-condition
checks.  The success dictionary reads `self.get_current_player().name`,
which raises `AttributeError` when the session just finished. -/
def Game.endTurn (rand : Rand) (g : Game) (sid : String) : HandlerOut :=
  if (pget g.players sid).isNone then (.ok (failRes "Player not found"), g)
  else
    match g.currentEntry with
    | .error e => (.error e, g)
    | .ok none => (.ok (failRes "Not your turn"), g)
    | .ok (some (csid, cp)) =>
      if cp.socket_id ≠ sid then (.ok (failRes "Not your turn"), g)
      else
        let g1 := g.setPlayer csid cp.endTurnSelf
        let g2 := { g1 with
          current_player_index :=
            (g1.current_player_index + 1) % g1.player_order.length
          turn_number := g1.turn_number + 1 }
        let g3 := if g2.current_player_index = 0 then g2.endRound rand else g2
        match g3.startNextTurn rand with
        | (.error e, g') => (.error e, g')
        | (.ok _, g4) =>
          match g4.checkPhaseProgression with
          | (.error e, g') => (.error e, g')
          | (.ok _, g5) =>
            match g5.checkGameEndConditions with
            | (.error e, g') => (.error e, g')
            | (.ok _, g6) =>
              match g6.getCurrentPlayer with
              | .error e => (.error e, g6)
              | .ok none =>
                (.error (.attributeError
                  "NoneType object has no attribute name"), g6)
              | .ok (some _) => (.ok okRes, g6)

/-- Dispatcher `execute_action` from `actions.py`: the `ACTION_HANDLERS`
table keyed by the action-type strings, with the `try`/`except` boundary
that converts any raised exception into a generic
`{"success": False, "reason": "Internal error: ..."}` result (the mutations
performed before the raise persist).  The `last_updated` timestamp touched
on success is not modelled. -/
def executeAction (rand : Rand) (g : Game) (sid : String)
    (action_type : String) (data : ActionData) : ActionRes × Game :=
  let handled : Option HandlerOut :=
    if action_type = "move" then some (actionMove rand g sid data)
    else if action_type = "explore" then some (actionExplore rand g sid data)
    else if action_type = "fall" then some (actionFall rand g sid data)
    else if action_type = "meet" then some (actionMeet g sid data)
    else if action_type = "rob" then some (actionRob rand g sid data)
    else if action_type = "use_stairs" then some (actionUseStairs g sid data)
    else if action_type = "use_elevator" then some (actionUseElevator g sid data)
    else if action_type = "use_item" then some (actionUseItem g sid data)
    else if action_type = "pass" then some (actionPass g sid data)
    else if action_type = "end_turn" then some (g.endTurn rand sid)
    else none
  match handled with
  | none =>
    (failRes ("Unknown action type: " ++ action_type), g)
  | some (outcome, g') =>
    match outcome with
    | .ok res => (res, g')
    | .error e => (failRes ("Internal error: " ++ e.msg), g')

-- ===========================================================================
-- Concrete session states used to evaluate the code at specific inputs.
-- ===========================================================================

/-- Empty deck. -/
def emptyDeck : Deck := ⟨[], [], 0⟩

/-- Sample basic path-tile card. -/
def basicCard : Card := .path "pc1" .basic [((0, 0), .normal)] 0 "Corridor"

/-- Second sample path-tile card. -/
def basicCard2 : Card := .path "pc2" .basic [((1, 1), .normal)] 0 "Hallway"

/-- Sample elevator button card. -/
def buttonCard1 : Card := .button "bt1" [1, 2, 3, 4, 5] ["A", "B"] "Elevator Button BT1"

/-- Sub-position at the center of the initial tile. -/
def centerPos : Position := ⟨2, 2, 1, 1, 2⟩

/-- Session template: a Playing-state two-player game on the fresh
starting board, with `s1` as the current player. -/
def baseGame (p1 p2 : Player) : Game where
  state := .playing
  current_phase := .exploration
  round_number := 1
  turn_number := 1
  total_actions := 0
  players := [("s1", p1), ("s2", p2)]
  player_order := ["s1", "s2"]
  current_player_index := 0
  board := Board.init rand0
  pathDeck := emptyDeck
  effectDeck := emptyDeck
  buttonDeck := emptyDeck
  zoneDeck := emptyDeck
  dice_results := []
  game_log := []
  victory_condition_met := false
  victory_type := none
  winning_players := []
  defeat_reason := none
  active_anomalies := []
  escape_exits_revealed := false
  players_placed_pawns := []

/-- Player on the initial tile. -/
def mkTestPlayer (name sid : String) (disorder : Int) : Player where
  name := name
  socket_id := sid
  disorder := disorder
  floor := 2
  position := some centerPos
  movement_points := 3
  turn_active := false

/-- C1 counterexample state: `s1` is current, `s2` is not; both stand on the
initial tile with disorders 3 and 4. -/
def gTurnCex : Game :=
  baseGame (mkTestPlayer "Alice" "s1" 3) (mkTestPlayer "Bob" "s2" 4)

/-- C2 failing state: current player with disorder 6 on floor 2 and one
path-tile card left in the deck. -/
def gFallA : Game :=
  let g := baseGame (mkTestPlayer "Alice" "s1" 6) (mkTestPlayer "Bob" "s2" 0)
  { g with pathDeck := ⟨[basicCard], [], 0⟩ }

/-- C4 failing state: same fall scenario with a two-card path deck. -/
def gFallB : Game :=
  let g := baseGame (mkTestPlayer "Carol" "s1" 6) (mkTestPlayer "Dave" "s2" 1)
  { g with pathDeck := ⟨[basicCard, basicCard2], [], 0⟩ }

/-- Elevator tile placed next to the initial tile. -/
def elevTile : PathTile := mkPathTile rand0 "elev1" .elevator ⟨2, 3, 2⟩ [] 0 none

/-- Board with the initial tile and an adjacent elevator tile. -/
def boardElev : Board :=
  match (Board.init rand0).placeTile rand0 elevTile with
  | some b => b
  | none => Board.init rand0

/-- C5 failing state: Mutation phase, current player standing on the
elevator tile, one button card in the deck. -/
def gElev : Game :=
  let p1 := { mkTestPlayer "Alice" "s1" 2 with position := some ⟨2, 3, 1, 1, 2⟩ }
  let g := baseGame p1 (mkTestPlayer "Bob" "s2" 0)
  { g with
      current_phase := .mutation
      total_actions := 60
      board := boardElev
      buttonDeck := ⟨[buttonCard1], [], 0⟩ }

/-- C6 failing state: the active-anomaly list has just become empty (its
last anomaly was purified), no player has escape or research progress, no
corruption. -/
def gPure : Game :=
  baseGame (mkTestPlayer "Alice" "s1" 1) (mkTestPlayer "Bob" "s2" 2)

/-- C3 counterexample tile: a Basic tile aimed at slot `(3, 3)` of floor 2 —
diagonally adjacent to the initial tile at `(2, 2)`, with all four orthogonal
neighbor slots empty. -/
def tileDiag : PathTile :=
  mkPathTile rand0 "diag1" .basic ⟨3, 3, 2⟩ [((0, 0), .normal)] 0 none

/-- C3 witness tile: a Basic tile aimed at slot `(2, 3)` of floor 2,
orthogonally adjacent to the initial tile. -/
def tileOrtho : PathTile :=
  mkPathTile rand0 "orth1" .basic ⟨2, 3, 2⟩ [((0, 0), .normal)] 0 none

/-- C10 witness state: one player meeting themself. -/
def gSelfMeet : Game :=
  baseGame (mkTestPlayer "Alice" "s1" 7) (mkTestPlayer "Bob" "s2" 0)

/-- C8 witness deck: empty draw pile, one card in the discard pile. -/
def deckRecycle : Deck := ⟨[], [basicCard], 4⟩

/-- Disorder trace: the sequence of disorder values observed after each
`update_disorder` call of a call sequence `ds`. -/
def disorderTrace (p : Player) : List Int → List Int
  | [] => []
  | d :: rest =>
    let p' := p.updateDisorder d
    p'.disorder :: disorderTrace p' rest

-- ===========================================================================
-- Theorems.
-- ===========================================================================

theorem pget_pset (l : List (String × Player)) (sid : String) (p : Player)
    (h : (pget l sid).isSome) : pget (pset l sid p) sid = some p := by
  induction l with
  | nil => simp [pget] at h
  | cons e rest ih =>
    obtain ⟨k, v⟩ := e
    by_cases he : k = sid
    · subst he
      simp [pget, pset]
    · simp [pget, pset, he] at h ⊢
      exact ih h

/-- Helper: under the C1 hypotheses (actor present, session Playing, not the
actor's turn) `validate_action` reports the turn rejection for every action
type. -/
theorem validateAction_not_your_turn (g : Game) (sid : String) (p : Player)
    (a : String) (hp : pget g.players sid = some p)
    (hstate : g.state = .playing)
    (hturn : g.isPlayerTurn sid = .ok false) :
    validateAction g sid a = .ok (false, "Not your turn") := by
  unfold validateAction
  rw [hp, hstate, hturn]
  simp [GameState.value]

/-- Helper: `Game.end_turn` rejects a present non-current player without
mutation. -/
theorem endTurn_not_your_turn (rand : Rand) (g : Game) (sid : String)
    (p : Player) (hp : pget g.players sid = some p)
    (hturn : g.isPlayerTurn sid = .ok false) :
    g.endTurn rand sid = (.ok (failRes "Not your turn"), g) := by
  unfold Game.isPlayerTurn Game.getCurrentPlayer at hturn
  cases hc : g.currentEntry with
  | error e =>
    rw [hc] at hturn
    simp at hturn
  | ok o =>
    rw [hc] at hturn
    cases o with
    | none =>
      unfold Game.endTurn
      rw [hp, hc]
      simp
    | some e =>
      obtain ⟨csid, cp⟩ := e
      simp only [Except.ok.injEq] at hturn
      have hne : cp.socket_id ≠ sid := by
        intro hcp
        rw [hcp] at hturn
        simp at hturn
      unfold Game.endTurn
      rw [hp, hc]
      simp [hne]

/-- C1 (amended): the turn gate exists only for the actions that call
`validate_action` — Move, Explore, Fall — and for EndTurn (which re-checks
inside `Game.end_turn`); each of those, submitted by a present non-current
player while the session is Playing, is rejected with the turn-related
reason "Not your turn" and leaves the game state (board, decks, every
player) exactly unchanged.  The remaining actions (Meet, Rob, UseStairs,
UseElevator, UseItem, Pass) perform no turn check at all — see the
counterexample. -/
theorem C1_turn_gate_amended (rand : Rand) (g : Game) (sid : String)
    (p : Player) (d : ActionData)
    (hp : pget g.players sid = some p)
    (hstate : g.state = .playing)
    (hturn : g.isPlayerTurn sid = .ok false) :
    executeAction rand g sid "move" d = (failRes "Not your turn", g) ∧
    executeAction rand g sid "explore" d = (failRes "Not your turn", g) ∧
    executeAction rand g sid "fall" d = (failRes "Not your turn", g) ∧
    executeAction rand g sid "end_turn" d = (failRes "Not your turn", g) := by
  have hv := validateAction_not_your_turn g sid p
  have h1 : actionMove rand g sid d = (.ok (failRes "Not your turn"), g) := by
    unfold actionMove
    rw [hv "move" hp hstate hturn]
  have h2 : actionExplore rand g sid d = (.ok (failRes "Not your turn"), g) := by
    unfold actionExplore
    rw [hv "explore" hp hstate hturn]
  have h3 : actionFall rand g sid d = (.ok (failRes "Not your turn"), g) := by
    unfold actionFall
    rw [hv "fall" hp hstate hturn]
  have h4 : g.endTurn rand sid = (.ok (failRes "Not your turn"), g) :=
    endTurn_not_your_turn rand g sid p hp hturn
  refine ⟨?_, ?_, ?_, ?_⟩
  · simp [executeAction, h1]
  · simp [executeAction, h2]
  · simp [executeAction, h3]
  · simp [executeAction, h4]

/-- C1 (witness): in the concrete session `gTurnCex`, the non-current player
`s2` has each gated action rejected with "Not your turn" and no mutation. -/
theorem C1_turn_gate_amended_witness :
    executeAction rand0 gTurnCex "s2" "move" {} =
      (failRes "Not your turn", gTurnCex) ∧
    executeAction rand0 gTurnCex "s2" "explore" {} =
      (failRes "Not your turn", gTurnCex) ∧
    executeAction rand0 gTurnCex "s2" "fall" {} =
      (failRes "Not your turn", gTurnCex) ∧
    executeAction rand0 gTurnCex "s2" "end_turn" {} =
      (failRes "Not your turn", gTurnCex) :=
  C1_turn_gate_amended rand0 gTurnCex "s2" (mkTestPlayer "Bob" "s2" 4) {}
    (by decide) rfl rfl

/-- C1 (counterexample): the claim "every action type rejects a non-current
player during Playing with a turn-related reason and no mutation" is false:
in `gTurnCex` the session is Playing, `s2` exists and is not the current
player, yet `s2`'s Meet action succeeds and mutates both players' disorder
(3 to 2 for `s1`, 4 to 3 for `s2`). -/
theorem C1_counterexample :
    gTurnCex.state = .playing ∧
    (pget gTurnCex.players "s2").isSome = true ∧
    gTurnCex.isPlayerTurn "s2" = .ok false ∧
    (executeAction rand0 gTurnCex "s2" "meet"
      { target_player := some "s1" }).1 = okRes ∧
    ((executeAction rand0 gTurnCex "s2" "meet"
      { target_player := some "s1" }).2.players.map
        fun e => (e.1, e.2.disorder)) = [("s1", 2), ("s2", 3)] := by
  refine ⟨rfl, by decide, rfl, by decide, by decide⟩

/-- C2 (bug evaluation): executing Fall in the concrete state `gFallA`
(current player, disorder 6, floor 2, one card in the path deck) returns a
failure result, yet the player has already been mutated (floor 2 to 1,
disorder 6 to 5) and the drawn path-tile card is in neither the draw pile
nor the discard pile — it is lost, not "returned to its deck before the
failure is reported". -/
theorem C2_fall_mutates_despite_failure :
    (executeAction rand0 gFallA "s1" "fall" {}).1.success = false ∧
    ((pget (executeAction rand0 gFallA "s1" "fall" {}).2.players "s1").map
      Player.floor) = some 1 ∧
    ((pget (executeAction rand0 gFallA "s1" "fall" {}).2.players "s1").map
      Player.disorder) = some 5 ∧
    gFallA.pathDeck.cards.length = 1 ∧
    (executeAction rand0 gFallA "s1" "fall" {}).2.pathDeck.cards = [] ∧
    (executeAction rand0 gFallA "s1" "fall" {}).2.pathDeck.discarded = [] := by
  decide

/-- C4 (bug evaluation): in the concrete state `gFallB` (current player,
disorder exactly 6, floor 2, Playing, path deck non-empty) the Fall action
does reach floor 1 and disorder 5, but the pipeline reports
`success:false` ("Internal error": the landing-tile code subscripts the
non-subscriptable `Position` object), not the success the claim states. -/
theorem C4_fall_returns_failure :
    gFallB.state = .playing ∧
    (pget gFallB.players "s1").map Player.disorder = some 6 ∧
    (pget gFallB.players "s1").map Player.floor = some 2 ∧
    (executeAction rand0 gFallB "s1" "fall" {}).1.success = false ∧
    (executeAction rand0 gFallB "s1" "fall" {}).1.reason =
      some "Internal error: Position object is not subscriptable" ∧
    ((pget (executeAction rand0 gFallB "s1" "fall" {}).2.players "s1").map
      Player.floor) = some 1 ∧
    ((pget (executeAction rand0 gFallB "s1" "fall" {}).2.players "s1").map
      Player.disorder) = some 5 := by
  decide

/-- C5 (bug evaluation): in the concrete state `gElev` (Mutation phase,
current player standing on an elevator tile, one button card in the deck)
the UseElevator action fails with an internal error raised before the
button deck is even touched: the drawn-and-discarded button card of the
claim never happens (the game state, deck included, is exactly unchanged),
because `Position(player.position[0], ...)` raises `TypeError` before the
malfunction branch. -/
theorem C5_elevator_no_button_discard :
    gElev.current_phase = .mutation ∧
    (gElev.board.getTileAtKey (2, 3, 2)).map PathTile.tile_type =
      some .elevator ∧
    (pget gElev.players "s1").map Player.position =
      some (some ⟨2, 3, 1, 1, 2⟩) ∧
    gElev.buttonDeck.cards.length = 1 ∧
    (executeAction rand0 gElev "s1" "use_elevator"
      { target_floor := some 3 }).1.success = false ∧
    (executeAction rand0 gElev "s1" "use_elevator"
      { target_floor := some 3 }).2 = gElev := by
  decide

/-- C6 (bug evaluation): the purification guard in
`_check_victory_conditions` is the contradiction
`not active_anomalies and len(active_anomalies) > 0`, so it is false in
every game state and the collective purification victory can never fire; in
particular in `gPure`, where the anomaly set has become empty, the
end-condition check leaves the session completely unchanged (state stays
Playing, no victory type, no winners) instead of finishing it with a
purification victory for all players. -/
theorem C6_purification_never_fires :
    (∀ g : Game, purificationCondition g = false) ∧
    (Game.checkGameEndConditions gPure).1 = .ok () ∧
    (Game.checkGameEndConditions gPure).2 = gPure ∧
    gPure.active_anomalies = [] ∧
    gPure.victory_type = none ∧
    gPure.state = .playing := by
  refine ⟨?_, by rfl, by decide, rfl, rfl, rfl⟩
  intro g
  unfold purificationCondition
  cases g.active_anomalies <;> simp

/-- C3 (amended): for every non-Initial tile, `place_tile` succeeds iff the
target `(x, y, floor)` slot is empty AND at least one same-floor surrounding
slot among the EIGHT neighbors (diagonals included, not only the four
orthogonal ones) is occupied; a failed placement returns the board
untouched (`none` carries no mutated board). -/
theorem C3_place_tile_amended (rand : Rand) (b : Board) (t : PathTile)
    (hnot : t.tile_type ≠ .initial) :
    ((b.placeTile rand t).isSome = true ↔
      ((b.getTileAtKey (t.position.x, t.position.y, t.position.floor)).isNone
          = true ∧
        b.hasAdjacentTile t.position = true)) ∧
    (b.hasAdjacentTile t.position = true ↔
      ∃ q ∈ t.position.adjacentSameFloor, (b.getTileAtTilePos q).isSome) := by
  constructor
  · unfold Board.placeTile
    by_cases hocc :
        (b.getTileAtKey (t.position.x, t.position.y, t.position.floor)).isSome
    · simp [hocc, Option.isNone_iff_eq_none]
      intro hc
      rw [hc] at hocc
      simp at hocc
    · by_cases hadj : b.hasAdjacentTile t.position
      · cases htz : t.zone <;>
          simp [hocc, hadj, hnot, Option.isNone_iff_eq_none,
            Option.not_isSome_iff_eq_none.mp hocc]
      · simp [hocc, hadj, hnot]
  · simp [Board.hasAdjacentTile, List.any_eq_true]

/-- C3 (witness): on the fresh starting board (Initial tile at
`(2, 2, 2)`) placing a Basic tile at the orthogonally adjacent empty slot
`(2, 3, 2)` succeeds. -/
theorem C3_place_tile_amended_witness :
    tileOrtho.tile_type ≠ .initial ∧
    ((Board.init rand0).placeTile rand0 tileOrtho).isSome = true :=
  ⟨by decide,
    ((C3_place_tile_amended rand0 (Board.init rand0) tileOrtho
      (by decide)).1).mpr ⟨by decide, by decide⟩⟩

/-- C3 (counterexample): placing a Basic tile at `(3, 3, 2)` — diagonally
adjacent to the Initial tile, with all FOUR orthogonal same-floor neighbor
slots empty — succeeds, contradicting "placing with zero occupied
4-neighbors always fails". -/
theorem C3_counterexample :
    tileDiag.tile_type ≠ .initial ∧
    ((Board.init rand0).placeTile rand0 tileDiag).isSome = true ∧
    ((Board.init rand0).getTileAtKey (3, 3, 2)).isNone = true ∧
    ((Board.init rand0).getTileAtKey (2, 3, 2)).isNone = true ∧
    ((Board.init rand0).getTileAtKey (4, 3, 2)).isNone = true ∧
    ((Board.init rand0).getTileAtKey (3, 2, 2)).isNone = true ∧
    ((Board.init rand0).getTileAtKey (3, 4, 2)).isNone = true := by
  decide

/-- C7: every `update_disorder` call clamps into `[0, MAX_DISORDER]`, so
along any finite call sequence with arbitrary deltas every observed
disorder value lies within `[0, 10]`. -/
theorem C7_disorder_clamp (p : Player) (ds : List Int) :
    (disorderTrace p ds).all
      (fun d => decide (0 ≤ d ∧ d ≤ MAX_DISORDER)) = true := by
  induction ds generalizing p with
  | nil => rfl
  | cons d rest ih =>
    simp only [disorderTrace, List.all_cons, Bool.and_eq_true]
    refine ⟨?_, ih _⟩
    simp only [Player.updateDisorder, decide_eq_true_eq, MAX_DISORDER]
    constructor
    · exact le_max_left 0 _
    · exact max_le (by norm_num) (min_le_left _ _)

/-- C8: `Deck.draw` returns a card whenever draw pile plus discard pile are
non-empty (the discard pile is recycled as the new draw pile via a shuffle),
and returns `none` with the deck untouched only when both piles are empty. -/
theorem C8_deck_draw_total (rand : Rand) (d : Deck)
    (hperm : ∀ l, (rand.shuffleCards l).Perm l) :
    (0 < d.cards.length + d.discarded.length →
      (Deck.draw rand d).1.isSome = true) ∧
    (d.cards = [] → d.discarded = [] → Deck.draw rand d = (none, d)) ∧
    (d.cards = [] → d.discarded ≠ [] →
      (Deck.draw rand d).2.cards = (rand.shuffleCards d.discarded).tail ∧
      (Deck.draw rand d).2.discarded = []) := by
  obtain ⟨cards, discarded, dc⟩ := d
  cases cards with
  | cons c cs =>
    refine ⟨fun _ => ?_, fun hnil => ?_, fun hnil => ?_⟩
    · simp [Deck.draw]
    · simp at hnil
    · simp at hnil
  | nil =>
    cases discarded with
    | nil =>
      refine ⟨fun hlen => ?_, fun _ _ => ?_, fun _ hne => ?_⟩
      · simp at hlen
      · simp [Deck.draw]
      · simp at hne
    | cons x xs =>
      have hlen := (hperm (x :: xs)).length_eq
      have hsome : ∃ y ys, rand.shuffleCards (x :: xs) = y :: ys := by
        cases hs : rand.shuffleCards (x :: xs) with
        | nil =>
          rw [hs] at hlen
          simp at hlen
        | cons y ys => exact ⟨y, ys, rfl⟩
      obtain ⟨y, ys, hs⟩ := hsome
      refine ⟨fun _ => ?_, fun _ hnil => ?_, fun _ _ => ?_⟩
      · unfold Deck.draw
        simp only [List.isEmpty_nil, List.isEmpty_cons, if_true, if_false,
          Bool.false_eq_true]
        rw [hs]
        simp
      · simp at hnil
      · unfold Deck.draw
        simp only [List.isEmpty_nil, List.isEmpty_cons, if_true, if_false,
          Bool.false_eq_true]
        rw [hs]
        simp

/-- C8 (witness): drawing from the concrete deck `deckRecycle` (empty draw
pile, one discarded card) with the identity shuffle yields a card. -/
theorem C8_deck_draw_total_witness :
    0 < deckRecycle.cards.length + deckRecycle.discarded.length ∧
    (Deck.draw rand0 deckRecycle).1.isSome = true :=
  ⟨by decide,
    (C8_deck_draw_total rand0 deckRecycle
      (fun l => List.Perm.refl l)).1 (by decide)⟩

/-- C9: the game phase is the pure function `get_current_phase` of the
cumulative completed-action count: Exploration on `[0, 50)`, Mutation on
`[50, 100)`, EndGame on `[100, ∞)`. -/
theorem C9_phase_of_actions (n : Int) :
    (0 ≤ n → n < 50 → getCurrentPhase n = .exploration) ∧
    (50 ≤ n → n < 100 → getCurrentPhase n = .mutation) ∧
    (100 ≤ n → getCurrentPhase n = .endGame) := by
  refine ⟨?_, ?_, ?_⟩
  · intro h1 h2
    have he : ¬(n ≥ PHASE_END_GAME_THRESHOLD) := by
      unfold PHASE_END_GAME_THRESHOLD
      omega
    have hm : ¬(n ≥ PHASE_MUTATION_THRESHOLD) := by
      unfold PHASE_MUTATION_THRESHOLD
      omega
    unfold getCurrentPhase
    rw [if_neg he, if_neg hm]
  · intro h1 h2
    have he : ¬(n ≥ PHASE_END_GAME_THRESHOLD) := by
      unfold PHASE_END_GAME_THRESHOLD
      omega
    have hm : n ≥ PHASE_MUTATION_THRESHOLD := by
      unfold PHASE_MUTATION_THRESHOLD
      omega
    unfold getCurrentPhase
    rw [if_neg he, if_pos hm]
  · intro h1
    have he : n ≥ PHASE_END_GAME_THRESHOLD := by
      unfold PHASE_END_GAME_THRESHOLD
      omega
    unfold getCurrentPhase
    rw [if_pos he]

/-- C9 (witness): concrete phase values at 10, 60 and 150 total actions. -/
theorem C9_phase_of_actions_witness :
    getCurrentPhase 10 = .exploration ∧
    getCurrentPhase 60 = .mutation ∧
    getCurrentPhase 150 = .endGame :=
  ⟨(C9_phase_of_actions 10).1 (by decide) (by decide),
   (C9_phase_of_actions 60).2.1 (by decide) (by decide),
   (C9_phase_of_actions 150).2.2 (by decide)⟩

/-- Helper: the double disorder clamp of a self-meet. -/
theorem double_decrement_clamp (d : Int) (h0 : 0 ≤ d) (h1 : d ≤ 10) :
    max 0 (min 10 (max 0 (min 10 (d + -1)) + -1)) = max 0 (d - 2) := by
  simp only [Int.max_def, Int.min_def]
  split_ifs <;> omega

/-- C10: the Meet action does not require a distinct target — a player with
disorder `d` (within the game's `[0, 10]` range) naming themself as the
target passes every interaction check (same floor/position trivially,
disorder difference 0), returns success, and the `update_disorder(-1)` of
`meet_player` hits the same aliased object twice, leaving the disorder at
`max 0 (d - 2)`.  (The actor's id must be a non-empty string: an empty
target id is falsy in the handler's `if not target_socket_id` check.) -/
theorem C10_meet_self (g : Game) (sid : String) (p : Player)
    (hp : pget g.players sid = some p)
    (hsid : sid ≠ "")
    (h0 : 0 ≤ p.disorder) (h1 : p.disorder ≤ MAX_DISORDER) :
    (actionMeet g sid { target_player := some sid }).1 = .ok okRes ∧
    ∃ p', pget (actionMeet g sid { target_player := some sid }).2.players sid
        = some p' ∧ p'.disorder = max 0 (p.disorder - 2) := by
  have hmeet : p.meetPlayer p true =
      (okRes, ((p.updateDisorder (-MEET_DISORDER_REDUCTION)).updateDisorder
          (-MEET_DISORDER_REDUCTION)).bumpMet.bumpMet,
        ((p.updateDisorder (-MEET_DISORDER_REDUCTION)).updateDisorder
          (-MEET_DISORDER_REDUCTION)).bumpMet.bumpMet) := by
    unfold Player.meetPlayer Player.canInteractWith
    simp [MEET_DISORDER_RANGE]
  have hact : actionMeet g sid { target_player := some sid } =
      (.ok okRes,
        (g.setPlayer sid
          (((p.updateDisorder (-MEET_DISORDER_REDUCTION)).updateDisorder
            (-MEET_DISORDER_REDUCTION)).bumpMet.bumpMet)).logEvent
          "players_met" "met" (some sid)) := by
    unfold actionMeet
    rw [hp]
    simp only [hsid, if_false, if_neg]
    rw [hp]
    simp only [decide_eq_true_eq, eq_self_iff_true, if_true, decide_True]
    rw [hmeet]
    simp [okRes]
  refine ⟨by rw [hact], ?_⟩
  refine ⟨(((p.updateDisorder (-MEET_DISORDER_REDUCTION)).updateDisorder
      (-MEET_DISORDER_REDUCTION)).bumpMet.bumpMet), ?_, ?_⟩
  · rw [hact]
    show pget (pset g.players sid _) sid = _
    exact pget_pset g.players sid _ (by rw [hp]; rfl)
  · show max 0 (min MAX_DISORDER
        ((p.updateDisorder (-MEET_DISORDER_REDUCTION)).disorder +
          -MEET_DISORDER_REDUCTION)) = max 0 (p.disorder - 2)
    show max 0 (min MAX_DISORDER
        (max 0 (min MAX_DISORDER (p.disorder + -MEET_DISORDER_REDUCTION)) +
          -MEET_DISORDER_REDUCTION)) = max 0 (p.disorder - 2)
    unfold MAX_DISORDER MEET_DISORDER_REDUCTION
    exact double_decrement_clamp p.disorder h0 h1

/-- C10 (witness): in the concrete session `gSelfMeet`, player `s1` with
disorder 7 meets themself: success, and the disorder becomes 5. -/
theorem C10_meet_self_witness :
    pget gSelfMeet.players "s1" = some (mkTestPlayer "Alice" "s1" 7) ∧
    ((actionMeet gSelfMeet "s1" { target_player := some "s1" }).1 =
        .ok okRes ∧
      ∃ p', pget (actionMeet gSelfMeet "s1"
          { target_player := some "s1" }).2.players "s1" = some p' ∧
        p'.disorder = max 0 ((mkTestPlayer "Alice" "s1" 7).disorder - 2)) :=
  ⟨by decide,
    C10_meet_self gSelfMeet "s1" (mkTestPlayer "Alice" "s1" 7)
      (by decide) (by decide) (by decide) (by decide)⟩

end NMB
